import Mathlib

/-
Verification development for the EBS volume backup program (src/main.py,
class SnapshotManagement).  The Python code is shallowly embedded: each
private method of the class becomes a Lean definition; the remote EC2
calls (describe_snapshots, create_snapshot, delete_snapshot) are modelled
by outcome oracles passed as function arguments, since their behaviour is
external to the program.
-/

/-- One AWS tag, an entry of a snapshot's "Tags" list: a Key/Value pair. -/
structure Tag where
  key : String
  value : String
deriving DecidableEq

/-- A snapshot as returned by describe_snapshots and consumed by the code:
its SnapshotId, State, StartTime (creation timestamp, modelled as Nat so
that the Python datetime comparison is plain numeric comparison), and the
optional "Tags" field (a snapshot dict may lack the "Tags" key, hence
Option). -/
structure Snapshot where
  snapshotId : String
  state : String
  startTime : Nat
  tags : Option (List Tag)
deriving DecidableEq

/-- The lambda event payload read by SnapshotManagement.__init__ (lines
18-23): ProductDomain, Service, Cluster, Application, RetentionPolicy and
VolumeIDs.  The retention policy arrives as a JSON object mapping tier
labels to integers; it is modelled as an association list with Int values
(JSON integers may be negative). -/
structure Event where
  productDomain : String
  service : String
  cluster : String
  application : String
  retentionPolicy : List (String × Int)
  volumeIds : List String

/-- The four clock-boundary fields of SnapshotManagement. -/
structure ClockConfig where
  start_of_day : Nat
  start_of_week : String
  start_of_month : Nat
  start_of_year : Nat
deriving DecidableEq

/-- Lines 13-16 of SnapshotManagement.__init__: the clock-boundary fields
are assigned the fixed literals 19, "Monday", 1, 1 (with comments noting
they mean 2am UTC+7 etc.).  They do not read anything from the event
payload. -/
def init_clock_config (_event : Event) : ClockConfig :=
  { start_of_day := 19, start_of_week := "Monday",
    start_of_month := 1, start_of_year := 1 }

/-- Line 22 of SnapshotManagement.__init__: the retention policy string is
stored as-is (self.retention_policy = event["RetentionPolicy"]); no
validation of the keep counts happens anywhere in the class, so the load
step is the identity on the policy. -/
def init_retention_policy (event : Event) : List (String × Int) :=
  event.retentionPolicy

/-- The wall-clock components read in __get_backup_tag (lines 114-120):
the weekday name (strftime %A), month, day of month and hour of
datetime.now(). -/
structure DateParts where
  dayname : String
  m : Nat
  d : Nat
  h : Nat
deriving DecidableEq

/-- SnapshotManagement.__get_backup_tag (lines 113-148): classify the
invocation time into a tier label, checking yearly, monthly, weekly and
daily boundaries in that order, with "h" as the default. -/
def get_backup_tag (cfg : ClockConfig) (dt : DateParts) : String :=
  if dt.h = cfg.start_of_day ∧ dt.d = cfg.start_of_month ∧ dt.m = cfg.start_of_year then
    "y"
  else if dt.h = cfg.start_of_day ∧ dt.d = cfg.start_of_month then
    "m"
  else if dt.h = cfg.start_of_day ∧ dt.dayname = cfg.start_of_week then
    "w"
  else if dt.h = cfg.start_of_day then
    "d"
  else
    "h"

/-- The yearly-boundary condition of __get_backup_tag (lines 122-126). -/
def yearly_cond (cfg : ClockConfig) (dt : DateParts) : Prop :=
  dt.h = cfg.start_of_day ∧ dt.d = cfg.start_of_month ∧ dt.m = cfg.start_of_year

/-- The monthly-boundary condition of __get_backup_tag (lines 129-132). -/
def monthly_cond (cfg : ClockConfig) (dt : DateParts) : Prop :=
  dt.h = cfg.start_of_day ∧ dt.d = cfg.start_of_month

/-- The weekly-boundary condition of __get_backup_tag (lines 135-138). -/
def weekly_cond (cfg : ClockConfig) (dt : DateParts) : Prop :=
  dt.h = cfg.start_of_day ∧ dt.dayname = cfg.start_of_week

/-- The daily-boundary condition of __get_backup_tag (lines 141-143). -/
def daily_cond (cfg : ClockConfig) (dt : DateParts) : Prop :=
  dt.h = cfg.start_of_day

instance (cfg : ClockConfig) (dt : DateParts) : Decidable (yearly_cond cfg dt) :=
  inferInstanceAs (Decidable (dt.h = cfg.start_of_day ∧ dt.d = cfg.start_of_month ∧ dt.m = cfg.start_of_year))

instance (cfg : ClockConfig) (dt : DateParts) : Decidable (monthly_cond cfg dt) :=
  inferInstanceAs (Decidable (dt.h = cfg.start_of_day ∧ dt.d = cfg.start_of_month))

instance (cfg : ClockConfig) (dt : DateParts) : Decidable (weekly_cond cfg dt) :=
  inferInstanceAs (Decidable (dt.h = cfg.start_of_day ∧ dt.dayname = cfg.start_of_week))

instance (cfg : ClockConfig) (dt : DateParts) : Decidable (daily_cond cfg dt) :=
  inferInstanceAs (Decidable (dt.h = cfg.start_of_day))

/-- SnapshotManagement.__get_all_snapshots (lines 52-92): for every
configured volume try to list its pending/completed snapshots; a listing
failure sets the loop status to False (the volume is only logged, it gets
no entry in the result dict); after the loop the whole process exits with
code 429 if the status is False, otherwise the dict of per-volume
snapshot lists is returned.  The remote call is modelled by the oracle
listSnaps (none = the call raised). -/
def get_all_snapshots (volume_ids : List String)
    (listSnaps : String → Option (List Snapshot)) :
    Except Nat (List (String × List Snapshot)) :=
  if volume_ids.all (fun v => (listSnaps v).isSome) then
    Except.ok (volume_ids.filterMap (fun v => (listSnaps v).map (fun s => (v, s))))
  else
    Except.error 429

/-- SnapshotManagement.__get_snapshots_by_state (lines 94-96). -/
def get_snapshots_by_state (snapshots : List Snapshot) (state : String) : List Snapshot :=
  snapshots.filter (fun x => x.state == state)

/-- SnapshotManagement.__get_snapshots_by_backup_tag (lines 98-105): keep
the snapshots that have a "Tags" field whose keys include "BackupTag",
then, mirroring the nested comprehension, emit x once for every tag entry
y of x with key "BackupTag" and value equal to backup_tag. -/
def get_snapshots_by_backup_tag (snapshots : List Snapshot) (backup_tag : String) :
    List Snapshot :=
  ((snapshots.filter (fun x => x.tags.isSome)).filter
      (fun x => ((x.tags.getD []).map Tag.key).contains "BackupTag")).flatMap
    (fun x =>
      ((x.tags.getD []).filter
          (fun y => y.key == "BackupTag" && y.value == backup_tag)).map (fun _ => x))

/-- The sort order used on line 110: Python sorted(..., key=StartTime,
reverse=True) puts larger StartTime first and, being stable, keeps the
original order of equal timestamps. -/
def newer_first (a b : Snapshot) : Prop :=
  b.startTime ≤ a.startTime

instance : DecidableRel newer_first :=
  fun a b => inferInstanceAs (Decidable (b.startTime ≤ a.startTime))

instance : IsTotal Snapshot newer_first :=
  ⟨fun a b => Nat.le_total b.startTime a.startTime⟩

instance : IsTrans Snapshot newer_first :=
  ⟨fun _ _ _ h1 h2 => Nat.le_trans h2 h1⟩

/-- Python's stable descending sort by StartTime, modelled by insertion
sort with the newer_first relation (a stable sort is determined by its
comparison, so any stable model is faithful). -/
def sort_newest_first (snapshots : List Snapshot) : List Snapshot :=
  snapshots.insertionSort newer_first

/-- SnapshotManagement.__get_oldest_snapshot_ids (lines 107-111): sort the
snapshots newest first, project to ids, and take the Python slice
ids[-number_of_snapshots:].  For a positive argument the slice is the
last number_of_snapshots elements (clamped to the whole list when the
argument exceeds its length); for argument 0 the slice ids[-0:] is
ids[0:], the WHOLE list. -/
def get_oldest_snapshot_ids (snapshots : List Snapshot) (number_of_snapshots : Nat) :
    List String :=
  let ids := (sort_newest_first snapshots).map Snapshot.snapshotId
  if number_of_snapshots = 0 then ids
  else ids.drop (ids.length - number_of_snapshots)

/-- The five tier labels iterated on line 155, in source order. -/
def backup_tag_labels : List String :=
  ["h", "d", "w", "m", "y"]

/-- The pure selection step of one iteration of the loop in
SnapshotManagement.__delete_old_snapshots (lines 155-171): group the
volume's snapshots by the given tier label; if the label is a key of the
retention policy and the group exceeds the keep count, select the excess
oldest ids; if the label is absent from the policy and the group is
non-empty, call __get_oldest_snapshot_ids with 0 (which returns every id
of the group). -/
def select_for_deletion_tag (snaps : List Snapshot) (policy : List (String × Int))
    (tag : String) : List String :=
  let snapshots := get_snapshots_by_backup_tag snaps tag
  match policy.lookup tag with
  | some keep =>
    let diff : Int := (snapshots.length : Int) - keep
    if 0 < diff then get_oldest_snapshot_ids snapshots diff.toNat else []
  | none =>
    if 0 < snapshots.length then get_oldest_snapshot_ids snapshots 0 else []

/-- All snapshot ids selected for deletion by one call of
__delete_old_snapshots, in the order the deletions are issued (labels in
source order, ids per label in selection order). -/
def select_for_deletion (snaps : List Snapshot) (policy : List (String × Int)) :
    List String :=
  backup_tag_labels.flatMap (select_for_deletion_tag snaps policy)

/-- The inner deletion loop of __delete_old_snapshots (lines 173-192):
issue delete_snapshot for each selected id; on success append the id to
ret, on failure set status to False and append a failure message.  The
remote call is modelled by the oracle deleteOk. -/
def delete_snapshot_loop (deleteOk : String → Bool) (snapshot_ids : List String)
    (status : Bool) (ret : List String) : Bool × List String :=
  match snapshot_ids with
  | [] => (status, ret)
  | snapshot_id :: rest =>
    if deleteOk snapshot_id then
      delete_snapshot_loop deleteOk rest status (ret ++ [snapshot_id])
    else
      delete_snapshot_loop deleteOk rest false
        (ret ++ ["Failed to Delete Snapshot " ++ snapshot_id])

/-- SnapshotManagement.__delete_old_snapshots (lines 150-193) for one
volume's snapshot list: status starts True and ret empty; each tier label
contributes its selection to the deletion loop. -/
def delete_old_snapshots (snaps : List Snapshot) (policy : List (String × Int))
    (deleteOk : String → Bool) : Bool × List String :=
  backup_tag_labels.foldl
    (fun acc tag =>
      delete_snapshot_loop deleteOk (select_for_deletion_tag snaps policy tag) acc.1 acc.2)
    (true, [])

/-- The report dict built by execute: created maps each volume id to the
new snapshot id or a message, deleted maps each volume id to the list of
deleted ids and failure messages. -/
structure Report where
  created : List (String × String)
  deleted : List (String × List String)
deriving DecidableEq

/-- SnapshotManagement.execute (lines 249-277): for each volume (in the
order of self.snapshots), if no listed snapshot is pending, attempt
snapshot creation (modelled by the oracle createSnap, returning the
status flag and the snapshot id or failure message of __create_snapshot,
lines 195-247); otherwise record the pending message with status True.
Then always run __delete_old_snapshots for the volume.  final_status is
and-ed with both per-volume flags; no branch leaves the loop early. -/
def execute (snaps : List (String × List Snapshot)) (policy : List (String × Int))
    (createSnap : String → Bool × String) (deleteOk : String → Bool) :
    Bool × Report :=
  snaps.foldl
    (fun acc p =>
      let pending := get_snapshots_by_state p.2 "pending"
      let created :=
        if pending.isEmpty then createSnap p.1
        else (true, "Pending Snapshot Detected, Operation Aborted")
      let deleted := delete_old_snapshots p.2 policy deleteOk
      (acc.1 && created.1 && deleted.1,
        { created := acc.2.created ++ [(p.1, created.2)],
          deleted := acc.2.deleted ++ [(p.1, deleted.2)] }))
    (true, { created := [], deleted := [] })

/-- The per-volume creation success flag of execute: the flag returned by
__create_snapshot when creation is attempted, True when a pending
snapshot makes execute skip creation. -/
def volume_create_status (createSnap : String → Bool × String)
    (p : String × List Snapshot) : Bool :=
  if (get_snapshots_by_state p.2 "pending").isEmpty then (createSnap p.1).1 else true

/-- Fixture: the retention policy of scenario A, keeping 2 hourly and 1 daily. -/
def polC1 : List (String × Int) :=
  [("h", 2), ("d", 1)]

/-- Fixture: an hourly-tagged snapshot created at time 1. -/
def snapC1a : Snapshot :=
  ⟨"snap-1", "completed", 1, some [⟨"BackupTag", "h"⟩]⟩

/-- Fixture: an hourly-tagged snapshot created at time 2. -/
def snapC1b : Snapshot :=
  ⟨"snap-2", "completed", 2, some [⟨"BackupTag", "h"⟩]⟩

/-- Fixture: an hourly-tagged snapshot created at time 3. -/
def snapC1c : Snapshot :=
  ⟨"snap-3", "completed", 3, some [⟨"BackupTag", "h"⟩]⟩

/-- Fixture: a weekly-tagged snapshot created at time 5. -/
def snapC3a : Snapshot :=
  ⟨"w-1", "completed", 5, some [⟨"BackupTag", "w"⟩]⟩

/-- Fixture: a weekly-tagged snapshot created at time 6. -/
def snapC3b : Snapshot :=
  ⟨"w-2", "completed", 6, some [⟨"BackupTag", "w"⟩]⟩

/-- Fixture: a snapshot whose dict has no Tags key at all. -/
def snapC6 : Snapshot :=
  ⟨"plain-1", "completed", 0, none⟩

/-- Fixture: a snapshot whose BackupTag value "x" is none of the five labels. -/
def snapC10 : Snapshot :=
  ⟨"odd-1", "completed", 0, some [⟨"BackupTag", "x"⟩]⟩

/-- Fixture: a daily-tagged snapshot created at time 4. -/
def snapC8 : Snapshot :=
  ⟨"d-1", "completed", 4, some [⟨"BackupTag", "d"⟩]⟩

/-- Fixture: an event payload (the clock-boundary claim supposes it could carry
boundary settings; the payload has no such fields). -/
def evC7 : Event :=
  ⟨"pd", "svc", "cluster", "app", [("h", 24)], ["vol-1"]⟩

/-- Fixture: an event payload carrying a negative keep count for tier h. -/
def evC8 : Event :=
  ⟨"pd", "svc", "cluster", "app", [("h", -1)], ["vol-1"]⟩

/-- Fixture: a listing oracle that fails for volume v1 and succeeds for v2. -/
def listC5 : String → Option (List Snapshot) :=
  fun v => if v = "v2" then some [] else none

/-- Sorting newest first permutes the input list. -/
theorem sort_newest_first_perm (l : List Snapshot) : (sort_newest_first l).Perm l :=
  List.perm_insertionSort newer_first l

/-- Sorting newest first preserves the length. -/
theorem sort_newest_first_length (l : List Snapshot) :
    (sort_newest_first l).length = l.length :=
  (sort_newest_first_perm l).length_eq

/-- The output of sort_newest_first is sorted by descending StartTime. -/
theorem sort_newest_first_sorted (l : List Snapshot) :
    List.Sorted newer_first (sort_newest_first l) :=
  List.sorted_insertionSort newer_first l

/-- In the descending-sorted list, everything dropped past position k is at
most as new as everything among the first k. -/
theorem sort_newest_first_drop_le_take (l : List Snapshot) (k : Nat) :
    ∀ s ∈ (sort_newest_first l).drop k, ∀ r ∈ (sort_newest_first l).take k,
      s.startTime ≤ r.startTime := by
  have h := sort_newest_first_sorted l
  rw [← List.take_append_drop k (sort_newest_first l)] at h
  have h2 := (List.pairwise_append.mp h).2.2
  intro s hs r hr
  exact h2 r hr s hs

/-- With argument 0 the Python slice ids[-0:] is the whole id list. -/
theorem get_oldest_snapshot_ids_zero (snaps : List Snapshot) :
    get_oldest_snapshot_ids snaps 0 = (sort_newest_first snaps).map Snapshot.snapshotId := by
  simp [get_oldest_snapshot_ids]

/-- With a positive argument the slice keeps the last n ids of the
descending-sorted list, i.e. drops the first length - n. -/
theorem get_oldest_snapshot_ids_pos (snaps : List Snapshot) (n : Nat) (hn : n ≠ 0) :
    get_oldest_snapshot_ids snaps n
      = ((sort_newest_first snaps).drop (snaps.length - n)).map Snapshot.snapshotId := by
  simp only [get_oldest_snapshot_ids, if_neg hn, List.map_drop, List.length_map,
    sort_newest_first_length]

/-- Claim C1: for a tier label t present in the policy with a non-negative
keep count, the per-tier deletion selection has exactly
max(0, group size - keep) ids, and the selected snapshots are the oldest of
the tier group: the group splits (up to permutation) into the selected part
and a kept part of size min(keep, group size), every selected snapshot being
no newer than every kept one.  In particular keep at least the group size
selects nothing. -/
theorem retention_present_tier (l : List Snapshot) (policy : List (String × Int))
    (t : String) (keep : Int) (hp : policy.lookup t = some keep) (hk : 0 ≤ keep) :
    (select_for_deletion_tag l policy t).length
        = (get_snapshots_by_backup_tag l t).length - keep.toNat
    ∧ ∃ old rest : List Snapshot,
        (get_snapshots_by_backup_tag l t).Perm (old ++ rest)
        ∧ select_for_deletion_tag l policy t = old.map Snapshot.snapshotId
        ∧ rest.length = min keep.toNat (get_snapshots_by_backup_tag l t).length
        ∧ ∀ s ∈ old, ∀ r ∈ rest, s.startTime ≤ r.startTime := by
  set g := get_snapshots_by_backup_tag l t with hg
  by_cases hd : (0 : Int) < (g.length : Int) - keep
  · have hsel : select_for_deletion_tag l policy t
        = get_oldest_snapshot_ids g ((g.length : Int) - keep).toNat := by
      simp only [select_for_deletion_tag, ← hg, hp, if_pos hd]
    have hn0 : ((g.length : Int) - keep).toNat ≠ 0 := by omega
    have hnval : ((g.length : Int) - keep).toNat = g.length - keep.toNat := by omega
    have hdropidx : g.length - (g.length - keep.toNat) = keep.toNat := by omega
    rw [hsel, get_oldest_snapshot_ids_pos g _ hn0, hnval, hdropidx]
    refine ⟨?_, (sort_newest_first g).drop keep.toNat, (sort_newest_first g).take keep.toNat,
      ?_, rfl, ?_, sort_newest_first_drop_le_take g keep.toNat⟩
    · rw [List.length_map, List.length_drop, sort_newest_first_length]
    · have hperm : g.Perm ((sort_newest_first g).take keep.toNat
          ++ (sort_newest_first g).drop keep.toNat) := by
        rw [List.take_append_drop]
        exact (sort_newest_first_perm g).symm
      exact hperm.trans List.perm_append_comm
    · rw [List.length_take, sort_newest_first_length]
  · have hsel : select_for_deletion_tag l policy t = [] := by
      simp only [select_for_deletion_tag, ← hg, hp, if_neg hd]
    rw [hsel]
    refine ⟨by simp; omega, [], g, by simp, rfl, by omega, by simp⟩

/-- Witness for C1: scenario A, policy h:2 and d:1 over three hourly
snapshots; one snapshot, the oldest, is selected. -/
theorem retention_present_tier_witness :
    polC1.lookup "h" = some 2 ∧ (0 : Int) ≤ 2
    ∧ ((select_for_deletion_tag [snapC1a, snapC1b, snapC1c] polC1 "h").length
        = (get_snapshots_by_backup_tag [snapC1a, snapC1b, snapC1c] "h").length - (2 : Int).toNat
      ∧ ∃ old rest : List Snapshot,
        (get_snapshots_by_backup_tag [snapC1a, snapC1b, snapC1c] "h").Perm (old ++ rest)
        ∧ select_for_deletion_tag [snapC1a, snapC1b, snapC1c] polC1 "h"
            = old.map Snapshot.snapshotId
        ∧ rest.length = min (2 : Int).toNat
            (get_snapshots_by_backup_tag [snapC1a, snapC1b, snapC1c] "h").length
        ∧ ∀ s ∈ old, ∀ r ∈ rest, s.startTime ≤ r.startTime) :=
  ⟨by decide, by decide,
    retention_present_tier [snapC1a, snapC1b, snapC1c] polC1 "h" 2 (by decide) (by decide)⟩

/-- Claim C3: for a tier label absent from the policy, the per-tier deletion
selection is (a permutation of) the ids of the whole tier group, so every
snapshot of the group is selected for deletion: absence behaves as keep
count 0. -/
theorem retention_absent_tier (l : List Snapshot) (policy : List (String × Int))
    (t : String) (hp : policy.lookup t = none) (ht : t ∈ backup_tag_labels) :
    (select_for_deletion_tag l policy t).Perm
        ((get_snapshots_by_backup_tag l t).map Snapshot.snapshotId)
    ∧ ∀ s ∈ get_snapshots_by_backup_tag l t,
        s.snapshotId ∈ select_for_deletion l policy := by
  have hsel : select_for_deletion_tag l policy t
      = (sort_newest_first (get_snapshots_by_backup_tag l t)).map Snapshot.snapshotId := by
    by_cases h0 : 0 < (get_snapshots_by_backup_tag l t).length
    · simp only [select_for_deletion_tag, hp, if_pos h0, get_oldest_snapshot_ids_zero]
    · have hnil : get_snapshots_by_backup_tag l t = [] := by
        rw [← List.length_eq_zero]
        omega
      simp [select_for_deletion_tag, hp, hnil, sort_newest_first, List.insertionSort]
  have hperm : (select_for_deletion_tag l policy t).Perm
      ((get_snapshots_by_backup_tag l t).map Snapshot.snapshotId) := by
    rw [hsel]
    exact List.Perm.map _ (sort_newest_first_perm _)
  refine ⟨hperm, fun s hs => ?_⟩
  have hmem : s.snapshotId ∈ select_for_deletion_tag l policy t :=
    hperm.mem_iff.mpr (List.mem_map.mpr ⟨s, hs, rfl⟩)
  exact List.mem_flatMap.mpr ⟨t, ht, hmem⟩

/-- Witness for C3: scenario B, tier w absent from the policy and a group of
two weekly snapshots; both are selected. -/
theorem retention_absent_tier_witness :
    ([("h", 2)] : List (String × Int)).lookup "w" = none ∧ "w" ∈ backup_tag_labels
    ∧ ((select_for_deletion_tag [snapC3a, snapC3b] [("h", 2)] "w").Perm
        ((get_snapshots_by_backup_tag [snapC3a, snapC3b] "w").map Snapshot.snapshotId)
      ∧ ∀ s ∈ get_snapshots_by_backup_tag [snapC3a, snapC3b] "w",
          s.snapshotId ∈ select_for_deletion [snapC3a, snapC3b] [("h", 2)]) :=
  ⟨by decide, by decide,
    retention_absent_tier [snapC3a, snapC3b] [("h", 2)] "w" (by decide) (by decide)⟩

/-- Membership in a tier group implies membership in the input list together
with a Tags entry keyed BackupTag whose value is the group's label. -/
theorem mem_get_snapshots_by_backup_tag {s : Snapshot} {l : List Snapshot} {tag : String}
    (h : s ∈ get_snapshots_by_backup_tag l tag) :
    s ∈ l ∧ ∃ tags, s.tags = some tags
      ∧ ∃ y ∈ tags, y.key = "BackupTag" ∧ y.value = tag := by
  simp only [get_snapshots_by_backup_tag, List.mem_flatMap, List.mem_filter, List.mem_map,
    Bool.and_eq_true, beq_iff_eq] at h
  obtain ⟨x, ⟨⟨hxl, hsome⟩, _⟩, y, hy, hx⟩ := h
  obtain ⟨tags, htags⟩ := Option.isSome_iff_exists.mp hsome
  subst hx
  rw [htags] at hy
  simp only [Option.getD_some] at hy
  exact ⟨hxl, tags, htags, y, hy.1, hy.2.1, hy.2.2⟩

/-- Every id returned by get_oldest_snapshot_ids is the id of some input
snapshot. -/
theorem mem_get_oldest_snapshot_ids {sid : String} {snaps : List Snapshot} {n : Nat}
    (h : sid ∈ get_oldest_snapshot_ids snaps n) :
    ∃ s ∈ snaps, s.snapshotId = sid := by
  simp only [get_oldest_snapshot_ids] at h
  have h2 : sid ∈ (sort_newest_first snaps).map Snapshot.snapshotId := by
    split at h
    · exact h
    · exact List.mem_of_mem_drop h
  obtain ⟨s, hs, rfl⟩ := List.mem_map.mp h2
  exact ⟨s, (sort_newest_first_perm snaps).mem_iff.mp hs, rfl⟩

/-- Every id in the deletion selection belongs to a snapshot of the input
list carrying a BackupTag tag whose value is one of the five tier labels. -/
theorem mem_select_for_deletion {sid : String} {l : List Snapshot}
    {policy : List (String × Int)} (h : sid ∈ select_for_deletion l policy) :
    ∃ s ∈ l, s.snapshotId = sid
      ∧ ∃ tags, s.tags = some tags
        ∧ ∃ y ∈ tags, y.key = "BackupTag" ∧ y.value ∈ backup_tag_labels := by
  obtain ⟨tag, htag, hmem⟩ := List.mem_flatMap.mp h
  have hgrp : ∃ s ∈ get_snapshots_by_backup_tag l tag, s.snapshotId = sid := by
    simp only [select_for_deletion_tag] at hmem
    split at hmem
    · split at hmem
      · exact mem_get_oldest_snapshot_ids hmem
      · cases hmem
    · split at hmem
      · exact mem_get_oldest_snapshot_ids hmem
      · cases hmem
  obtain ⟨s, hs, hid⟩ := hgrp
  obtain ⟨hl, tags, htags, y, hy, hkey, hval⟩ := mem_get_snapshots_by_backup_tag hs
  exact ⟨s, hl, hid, tags, htags, y, hy, hkey, hval ▸ htag⟩

/-- Claim C6: a snapshot with no Tags entry keyed BackupTag (in particular one
with no Tags at all), and whose id no other listed snapshot shares, is never
present in the deletion selection, whatever the policy. -/
theorem no_backup_tag_never_selected (l : List Snapshot) (policy : List (String × Int))
    (s : Snapshot) (hs : s ∈ l)
    (hno : ∀ tags, s.tags = some tags → ∀ y ∈ tags, y.key ≠ "BackupTag")
    (hid : ∀ s2 ∈ l, s2.snapshotId = s.snapshotId → s2 = s) :
    s.snapshotId ∉ select_for_deletion l policy := by
  intro hmem
  obtain ⟨s2, hs2, hsid, tags, htags, y, hy, hkey, _⟩ := mem_select_for_deletion hmem
  have heq := hid s2 hs2 hsid
  subst heq
  exact hno tags htags y hy hkey

/-- Witness for C6: the untagged snapshot is not selected even under a policy
that prunes the whole hourly group. -/
theorem no_backup_tag_never_selected_witness :
    snapC6.tags = none
    ∧ snapC6.snapshotId ∉ select_for_deletion [snapC6, snapC1a] [("h", 0)] :=
  ⟨rfl, no_backup_tag_never_selected [snapC6, snapC1a] [("h", 0)] snapC6 (by decide)
    (fun _ h => nomatch h) (by decide)⟩

/-- Claim C10: a snapshot whose BackupTag values all lie outside the five tier
labels h, d, w, m, y (and whose id no other listed snapshot shares) is never
present in the deletion selection, because selection iterates over exactly
those five labels and matches the tag value exactly. -/
theorem foreign_backup_tag_never_selected (l : List Snapshot) (policy : List (String × Int))
    (s : Snapshot) (hs : s ∈ l)
    (hval : ∀ tags, s.tags = some tags → ∀ y ∈ tags,
      y.key = "BackupTag" → y.value ∉ backup_tag_labels)
    (hid : ∀ s2 ∈ l, s2.snapshotId = s.snapshotId → s2 = s) :
    s.snapshotId ∉ select_for_deletion l policy := by
  intro hmem
  obtain ⟨s2, hs2, hsid, tags, htags, y, hy, hkey, hvy⟩ := mem_select_for_deletion hmem
  have heq := hid s2 hs2 hsid
  subst heq
  exact hval tags htags y hy hkey hvy

/-- Witness for C10: a snapshot tagged BackupTag value x is not selected even
under a policy that prunes the whole hourly group. -/
theorem foreign_backup_tag_never_selected_witness :
    snapC10.tags = some [⟨"BackupTag", "x"⟩]
    ∧ snapC10.snapshotId ∉ select_for_deletion [snapC10, snapC1a] [("h", 0)] :=
  ⟨rfl, foreign_backup_tag_never_selected [snapC10, snapC1a] [("h", 0)] snapC10 (by decide)
    (by
      intro tags h y hy hk
      injection h with h2
      subst h2
      simp only [List.mem_singleton] at hy
      subst hy
      decide)
    (by decide)⟩

/-- Claim C2: the classifier returns exactly one of the five labels, chosen by
strict first-match priority: y exactly on the yearly boundary, m exactly when
the monthly but not the yearly boundary holds, w exactly when the weekly but
neither the yearly nor the monthly boundary holds, d exactly on a day start
that is none of the former, and h exactly away from the day-start hour. -/
theorem classifier_first_match (cfg : ClockConfig) (dt : DateParts) :
    (get_backup_tag cfg dt = "y" ↔ yearly_cond cfg dt)
    ∧ (get_backup_tag cfg dt = "m" ↔ ¬ yearly_cond cfg dt ∧ monthly_cond cfg dt)
    ∧ (get_backup_tag cfg dt = "w"
        ↔ ¬ yearly_cond cfg dt ∧ ¬ monthly_cond cfg dt ∧ weekly_cond cfg dt)
    ∧ (get_backup_tag cfg dt = "d"
        ↔ ¬ yearly_cond cfg dt ∧ ¬ monthly_cond cfg dt ∧ ¬ weekly_cond cfg dt
          ∧ daily_cond cfg dt)
    ∧ (get_backup_tag cfg dt = "h" ↔ ¬ daily_cond cfg dt)
    ∧ get_backup_tag cfg dt ∈ backup_tag_labels := by
  unfold get_backup_tag yearly_cond monthly_cond weekly_cond daily_cond backup_tag_labels
  split_ifs with h1 h2 h3 h4 <;> simp_all

/-- Witness for C2: on the yearly boundary of the hardcoded configuration the
label is y. -/
theorem classifier_first_match_witness :
    get_backup_tag ⟨19, "Monday", 1, 1⟩ ⟨"Friday", 1, 1, 19⟩ = "y" :=
  ((classifier_first_match ⟨19, "Monday", 1, 1⟩ ⟨"Friday", 1, 1, 19⟩).1).mpr (by decide)

/-- Counterexample to C7: the clock-boundary parameters are not taken from
the supplied configuration; whatever the event, the constructed day-start
hour is the hardcoded 19, and the invocation at hour 2, day 1, month 1 that
the claim expects to classify as y classifies as h. -/
theorem clock_config_not_from_event :
    (init_clock_config evC7).start_of_day = 19
    ∧ get_backup_tag (init_clock_config evC7) ⟨"Thursday", 1, 1, 2⟩ = "h" :=
  ⟨rfl, rfl⟩

/-- Claim C7 (amended): the clock-boundary parameters are hardcoded constants
(dayStartHour 19, weekStartDay Monday, monthStartDay 1, yearStartMonth 1)
ignoring the event payload, and at hour 19 on day 1 of month 1 the
classifier returns y. -/
theorem clock_config_hardcoded (e : Event) :
    init_clock_config e = ⟨19, "Monday", 1, 1⟩
    ∧ ∀ dayname : String,
        get_backup_tag (init_clock_config e) ⟨dayname, 1, 1, 19⟩ = "y" :=
  ⟨rfl, fun _ => rfl⟩

/-- Counterexample to C9: a time can satisfy the yearly boundary condition
without satisfying the weekly one (day-start hour on January 1st falling on
a Tuesday while weeks start on Monday), so the yearly condition is not a
subset of the weekly condition. -/
theorem yearly_not_weekly :
    yearly_cond ⟨19, "Monday", 1, 1⟩ ⟨"Tuesday", 1, 1, 19⟩
    ∧ ¬ weekly_cond ⟨19, "Monday", 1, 1⟩ ⟨"Tuesday", 1, 1, 19⟩ := by
  decide

/-- Claim C9 (amended): the yearly boundary condition implies the monthly and
daily ones (though not the weekly one), and on a yearly boundary the
classifier returns the most specific label y. -/
theorem classifier_nesting (cfg : ClockConfig) (dt : DateParts)
    (hy : yearly_cond cfg dt) :
    monthly_cond cfg dt ∧ daily_cond cfg dt ∧ get_backup_tag cfg dt = "y" := by
  obtain ⟨h1, h2, h3⟩ := hy
  refine ⟨⟨h1, h2⟩, h1, ?_⟩
  unfold get_backup_tag
  rw [if_pos ⟨h1, h2, h3⟩]

/-- Witness for C9 (amended), at the yearly boundary of the hardcoded
configuration. -/
theorem classifier_nesting_witness :
    monthly_cond ⟨19, "Monday", 1, 1⟩ ⟨"Friday", 1, 1, 19⟩
    ∧ daily_cond ⟨19, "Monday", 1, 1⟩ ⟨"Friday", 1, 1, 19⟩
    ∧ get_backup_tag ⟨19, "Monday", 1, 1⟩ ⟨"Friday", 1, 1, 19⟩ = "y" :=
  classifier_nesting ⟨19, "Monday", 1, 1⟩ ⟨"Friday", 1, 1, 19⟩ (by decide)

/-- Counterexample to C5: with two volumes of which only the first fails to
list, the run still terminates early with exit 429 and no report, so early
termination does not require listing to fail for every volume. -/
theorem listing_abort_counterexample :
    get_all_snapshots ["v1", "v2"] listC5 = Except.error 429
    ∧ listC5 "v2" = some [] :=
  ⟨rfl, rfl⟩

/-- Claim C5 (amended): the constructor's listing pass visits every volume
(failures are only logged, the loop continues), but afterwards the run
aborts with exit 429, producing no report, exactly when listing failed for
at least one volume. -/
theorem get_all_snapshots_aborts_iff (volume_ids : List String)
    (listSnaps : String → Option (List Snapshot)) :
    get_all_snapshots volume_ids listSnaps = Except.error 429
      ↔ ∃ v ∈ volume_ids, listSnaps v = none := by
  constructor
  · intro habort
    unfold get_all_snapshots at habort
    by_cases h : (volume_ids.all fun v => (listSnaps v).isSome) = true
    · rw [if_pos h] at habort
      cases habort
    · rw [List.all_eq_true] at h
      push_neg at h
      obtain ⟨v, hv, hnone⟩ := h
      refine ⟨v, hv, ?_⟩
      simpa [Option.not_isSome_iff_eq_none] using hnone
  · rintro ⟨v, hv, hnone⟩
    unfold get_all_snapshots
    rw [if_neg]
    intro hall
    rw [List.all_eq_true] at hall
    have h2 := hall v hv
    rw [hnone] at h2
    cases h2

/-- Witness for C5 (amended): a single failing volume aborts the run. -/
theorem get_all_snapshots_aborts_iff_witness :
    get_all_snapshots ["v1"] (fun _ => none) = Except.error 429 :=
  (get_all_snapshots_aborts_iff ["v1"] (fun _ => none)).mpr ⟨"v1", by decide, rfl⟩

/-- Counterexample to C8: a policy with a negative keep count is not rejected
at load time (the loader is the identity, there is no ConfigurationError
path), the negative value reaches the evaluator, and there it selects every
snapshot of the tier: with keep -1 over two hourly snapshots the excess 3 is
clamped by the Python slice to the whole group. -/
theorem negative_keep_not_rejected :
    init_retention_policy evC8 = [("h", -1)]
    ∧ select_for_deletion [snapC1a, snapC1b] [("h", -1)] = ["snap-2", "snap-1"] :=
  ⟨rfl, by decide⟩

/-- Claim C8 (amended): a negative keep count is not rejected anywhere; it
reaches the deletion evaluator, where the excess exceeds the group size and
the whole tier group is selected for deletion. -/
theorem negative_keep_selects_all (l : List Snapshot) (policy : List (String × Int))
    (t : String) (keep : Int) (hp : policy.lookup t = some keep) (hneg : keep < 0) :
    (select_for_deletion_tag l policy t).Perm
      ((get_snapshots_by_backup_tag l t).map Snapshot.snapshotId) := by
  set g := get_snapshots_by_backup_tag l t with hg
  have hd : (0 : Int) < (g.length : Int) - keep := by omega
  have hn0 : ((g.length : Int) - keep).toNat ≠ 0 := by omega
  have hidx : g.length - ((g.length : Int) - keep).toNat = 0 := by omega
  have hsel : select_for_deletion_tag l policy t
      = get_oldest_snapshot_ids g ((g.length : Int) - keep).toNat := by
    simp only [select_for_deletion_tag, ← hg, hp, if_pos hd]
  rw [hsel, get_oldest_snapshot_ids_pos g _ hn0, hidx, List.drop_zero]
  exact List.Perm.map _ (sort_newest_first_perm g)

/-- Witness for C8 (amended): keep -2 on tier d selects the whole daily
group. -/
theorem negative_keep_selects_all_witness :
    ([("d", -2)] : List (String × Int)).lookup "d" = some (-2) ∧ (-2 : Int) < 0
    ∧ (select_for_deletion_tag [snapC8] [("d", -2)] "d").Perm
        ((get_snapshots_by_backup_tag [snapC8] "d").map Snapshot.snapshotId) :=
  ⟨by decide, by decide,
    negative_keep_selects_all [snapC8] [("d", -2)] "d" (-2) (by decide) (by decide)⟩

/-- The inner deletion loop returns the conjunction of the incoming status
with the success of every deletion, and appends one entry per id: the id on
success, a failure message otherwise. -/
theorem delete_snapshot_loop_spec (deleteOk : String → Bool) (ids : List String) :
    ∀ status ret, delete_snapshot_loop deleteOk ids status ret
      = (status && ids.all deleteOk,
         ret ++ ids.map (fun sid =>
           if deleteOk sid then sid else "Failed to Delete Snapshot " ++ sid)) := by
  induction ids with
  | nil => intro status ret; simp [delete_snapshot_loop]
  | cons a rest ih =>
    intro status ret
    by_cases h : deleteOk a
    · simp [delete_snapshot_loop, h, ih]
    · simp [delete_snapshot_loop, h, ih]

/-- One volume's deletion pass returns the conjunction of every per-deletion
success flag over the whole selection, and one result entry per selected
id. -/
theorem delete_old_snapshots_spec (snaps : List Snapshot) (policy : List (String × Int))
    (deleteOk : String → Bool) :
    delete_old_snapshots snaps policy deleteOk
      = ((select_for_deletion snaps policy).all deleteOk,
         (select_for_deletion snaps policy).map (fun sid =>
           if deleteOk sid then sid else "Failed to Delete Snapshot " ++ sid)) := by
  have key : ∀ (tags : List String) (acc : Bool × List String),
      tags.foldl
          (fun acc tag =>
            delete_snapshot_loop deleteOk (select_for_deletion_tag snaps policy tag)
              acc.1 acc.2) acc
        = (acc.1 && (tags.flatMap (select_for_deletion_tag snaps policy)).all deleteOk,
           acc.2 ++ (tags.flatMap (select_for_deletion_tag snaps policy)).map (fun sid =>
             if deleteOk sid then sid else "Failed to Delete Snapshot " ++ sid)) := by
    intro tags
    induction tags with
    | nil => intro acc; simp
    | cons t ts ih =>
      intro acc
      rw [List.foldl_cons, delete_snapshot_loop_spec, ih]
      simp [List.flatMap_cons, List.all_append, List.map_append, List.append_assoc,
        Bool.and_assoc]
  rw [delete_old_snapshots, key backup_tag_labels (true, []), select_for_deletion]
  simp

/-- Claim C4: the overall status of execute is the conjunction, over every
volume, of the per-volume creation success flag (True when creation is
skipped for a pending snapshot) and of every per-deletion success flag, so
any single creation or deletion failure makes the overall status false;
every volume receives a created entry and a deleted entry (no early abort),
and the deleted entries are exactly the per-volume deletion results, an
expression independent of the creation outcomes, so a creation failure
never prevents the volume's deletions from being attempted. -/
theorem execute_overall_status (snaps : List (String × List Snapshot))
    (policy : List (String × Int)) (createSnap : String → Bool × String)
    (deleteOk : String → Bool) :
    (execute snaps policy createSnap deleteOk).1
      = snaps.all (fun p => volume_create_status createSnap p
          && (select_for_deletion p.2 policy).all deleteOk)
    ∧ (execute snaps policy createSnap deleteOk).2.created.map Prod.fst
        = snaps.map Prod.fst
    ∧ (execute snaps policy createSnap deleteOk).2.deleted
        = snaps.map (fun p => (p.1, (delete_old_snapshots p.2 policy deleteOk).2)) := by
  have key : ∀ (vs : List (String × List Snapshot)) (acc : Bool × Report),
      vs.foldl
          (fun acc p =>
            let pending := get_snapshots_by_state p.2 "pending"
            let created :=
              if pending.isEmpty then createSnap p.1
              else (true, "Pending Snapshot Detected, Operation Aborted")
            let deleted := delete_old_snapshots p.2 policy deleteOk
            (acc.1 && created.1 && deleted.1,
              { created := acc.2.created ++ [(p.1, created.2)],
                deleted := acc.2.deleted ++ [(p.1, deleted.2)] })) acc
        = (acc.1 && vs.all (fun p => volume_create_status createSnap p
              && (delete_old_snapshots p.2 policy deleteOk).1),
           { created := acc.2.created ++ vs.map (fun p => (p.1,
               if (get_snapshots_by_state p.2 "pending").isEmpty then (createSnap p.1).2
               else "Pending Snapshot Detected, Operation Aborted")),
             deleted := acc.2.deleted
               ++ vs.map (fun p => (p.1, (delete_old_snapshots p.2 policy deleteOk).2)) }) := by
    intro vs
    induction vs with
    | nil => intro acc; simp
    | cons p ps ih =>
      intro acc
      rw [List.foldl_cons]
      show (List.foldl _ (_, _) ps) = _
      rw [ih]
      simp [volume_create_status, apply_ite, List.all_cons, List.map_cons,
        List.cons_append, List.append_assoc, Bool.and_assoc]
  have hmain := key snaps (true, { created := [], deleted := [] })
  unfold execute
  rw [hmain]
  refine ⟨by simp [delete_old_snapshots_spec], ?_, by simp⟩
  simp only [List.map_map]
  simp [Function.comp]
